import Mathlib

/-!
Shallow embedding of `src/search_engine.py`, a tf-idf document search engine.

The Python core consists of a token normalizer `clean`, a `Document` class
holding per-document term frequencies, and a `SearchEngine` class holding the
inverted index, the idf computation and the query-time ranking.  File I/O and
directory listing are external collaborators: the embedding gives each
`Document` its identifier (`path`) and its already-read text (`content`)
directly, and a `SearchEngine` is built from the ordered list of its
documents.

Floating-point numbers are modelled exactly: term frequencies (ratios of
counts) live in `ℚ`, and `math.log`-based idf values and scores live in `ℝ`
via `Real.log`.  Strings contain ASCII in every scenario of interest, so
Python's Unicode-aware `str.lower` and `\w` are modelled by their ASCII
restrictions (`Char.toLower`, letters/digits/underscore).
-/

/-- Word characters of Python's regex class `\w` (ASCII restriction):
letters, digits and the underscore.  Its complement `\W` is what `clean`
deletes. -/
def isWordChar (c : Char) : Bool := c.isAlphanum || c = '_'

/-- Model of `clean(token)` (`src/search_engine.py:9-16`): lowercase the
token, then delete every match of `\W+`, i.e. keep exactly the word
characters of the lowercased string. -/
def clean (token : String) : String :=
  ⟨(token.data.map Char.toLower).filter isWordChar⟩

/-- Helper for `pySplit`: splits a character list into the maximal runs of
non-whitespace characters, accumulating the current run in reverse. -/
def splitWSAux : List Char → List Char → List (List Char)
  | [], acc => if acc.isEmpty then [] else [acc.reverse]
  | c :: cs, acc =>
    if c.isWhitespace then
      (if acc.isEmpty then splitWSAux cs [] else acc.reverse :: splitWSAux cs [])
    else splitWSAux cs (c :: acc)

/-- Model of Python's `str.split()` with no separator argument: the list of
maximal whitespace-delimited non-empty substrings. -/
def pySplit (s : String) : List String :=
  (splitWSAux s.data []).map (fun l => String.mk l)

/-- Model of the `Document` class (`src/search_engine.py:22-62`).  The file
read performed by `Document.__init__` is the collaborator's concern: the
embedding stores the identifier (`path`) and the decoded text (`content`),
and derives `words` and `term_freq` from them. -/
structure Document where
  path : String
  content : String
deriving DecidableEq

/-- `self.words = content.split()` (`src/search_engine.py:35`). -/
def Document.words (d : Document) : List String := pySplit d.content

/-- The surviving tokens: each raw word cleaned, tokens that clean to the
empty string discarded (`src/search_engine.py:37-40`). -/
def Document.cleanedWords (d : Document) : List String :=
  (d.words.map clean).filter (fun w => w ≠ "")

/-- `total_words = len(self.words) if self.words else 1`
(`src/search_engine.py:43`). -/
def Document.totalWords (d : Document) : Nat :=
  if d.words.isEmpty then 1 else d.words.length

/-- The normalized frequency table (`src/search_engine.py:37-45`): the raw
occurrence count of a cleaned term divided by `total_words`.  A term that is
not a key of the Python dict has raw count `0`, so the `0.0` default of
`dict.get` coincides with the quotient. -/
def Document.term_freq (d : Document) (t : String) : ℚ :=
  (d.cleanedWords.count t : ℚ) / (d.totalWords : ℚ)

/-- `Document.term_frequency` (`src/search_engine.py:47-50`): cleans its
argument, then looks it up with default `0.0`. -/
def Document.term_frequency (d : Document) (term : String) : ℚ :=
  d.term_freq (clean term)

/-- `Document.get_words` (`src/search_engine.py:56-58`): the set of distinct
cleaned words, i.e. the keys of `term_freq`. -/
def Document.get_words (d : Document) : List String := d.cleanedWords.dedup

/-- Model of the `SearchEngine` class (`src/search_engine.py:68-117`).
Directory listing and extension filtering are the collaborator's concern:
the embedding is built from the ordered list of documents.  `count` and the
inverted index `all_index` are derived: `all_index` maps a term to the
documents containing it, in document order, and a term is a key iff some
document contains it — exactly what the construction loop
(`src/search_engine.py:80-86`) produces. -/
structure SearchEngine where
  docs : List Document
deriving DecidableEq

/-- `self.count` after construction: the number of documents. -/
def SearchEngine.count (c : SearchEngine) : Nat := c.docs.length

/-- `self.all_index[t]`: the documents whose `get_words` contains `t`, in
insertion order (`src/search_engine.py:85-86`). -/
def SearchEngine.indexDocs (c : SearchEngine) (t : String) : List Document :=
  c.docs.filter (fun d => d.get_words.contains t)

/-- `t in self.all_index`: some document contains `t`. -/
def SearchEngine.inIndex (c : SearchEngine) (t : String) : Bool :=
  c.docs.any (fun d => d.get_words.contains t)

/-- `SearchEngine._calculate_idf` (`src/search_engine.py:88-92`): note that
the source does not clean its argument. -/
noncomputable def SearchEngine.calculate_idf (c : SearchEngine) (term : String) : ℝ :=
  if c.inIndex term then
    Real.log ((c.count : ℝ) / ((c.indexDocs term).length : ℝ))
  else 0

/-- `query_terms = [clean(word) for word in query.split()]`
(`src/search_engine.py:97`). -/
def queryTerms (q : String) : List String := (pySplit q).map clean

/-- `matching_docs` (`src/search_engine.py:98-102`): the union over the query
terms of `all_index[term]`, realized as the documents matched by some query
term, in document order (the Python set's iteration order is unspecified). -/
def SearchEngine.matchingDocs (c : SearchEngine) (q : String) : List Document :=
  c.docs.filter (fun d =>
    (queryTerms q).any (fun t => c.inIndex t && (c.indexDocs t).contains d))

/-- `total_score` of a document (`src/search_engine.py:105-108`): the sum
over the query terms of `idf(term) * term_frequency(term)`. -/
noncomputable def SearchEngine.score (c : SearchEngine) (q : String) (d : Document) : ℝ :=
  ((queryTerms q).map (fun t => c.calculate_idf t * (d.term_frequency t : ℝ))).sum

/-- The comparison used to sort `big_list.items()` by descending score
(`src/search_engine.py:112`). -/
def rankRel (a b : Document × ℝ) : Prop := b.2 ≤ a.2

noncomputable instance : DecidableRel rankRel :=
  fun a b => inferInstanceAs (Decidable (b.2 ≤ a.2))

instance : IsTotal (Document × ℝ) rankRel := ⟨fun a b => le_total b.2 a.2⟩

instance : IsTrans (Document × ℝ) rankRel := ⟨fun _ _ _ h1 h2 => le_trans h2 h1⟩

/-- `sorted(big_list.items(), key=lambda x: x[1], reverse=True)`
(`src/search_engine.py:112`): the scored candidates sorted by descending
score (the tie order among equal scores is unspecified in the source). -/
noncomputable def SearchEngine.ranked (c : SearchEngine) (q : String) : List (Document × ℝ) :=
  List.insertionSort rankRel ((c.matchingDocs q).map (fun d => (d, c.score q d)))

/-- `SearchEngine.search` (`src/search_engine.py:94-113`): the paths of the
ranked candidates. -/
noncomputable def SearchEngine.search (c : SearchEngine) (q : String) : List String :=
  (c.ranked q).map (fun p => p.1.path)

/-- `Corpus.build`: constructing the engine from an ordered list of
`(identifier, content)` pairs, one `Document` per entry in input order. -/
def build (entries : List (String × String)) : SearchEngine :=
  ⟨entries.map (fun e => ⟨e.1, e.2⟩)⟩

/-- The demo corpus of the source's tests (`src/search_engine.py:163-166`). -/
def doc1 : Document := ⟨"doc1.txt", "dogs are the greatest pets"⟩

def doc2 : Document := ⟨"doc2.txt", "cats seem pretty okay"⟩

def doc3 : Document := ⟨"doc3.txt", "i love dogs"⟩

def demo : SearchEngine := ⟨[doc1, doc2, doc3]⟩

/-- The normalizer as the spec's section 4.1 words it, for comparison with
`clean`: lowercase, then remove every character that is not an ASCII letter
or digit (no underscore). -/
def specNormalize (token : String) : String :=
  ⟨(token.data.map Char.toLower).filter Char.isAlphanum⟩

/-- The idf computation as the spec's section 4.4 words it, for comparison
with `SearchEngine.calculate_idf`: normalize the term first, then look it up. -/
noncomputable def specIdf (c : SearchEngine) (term : String) : ℝ :=
  if c.inIndex (clean term) then
    Real.log ((c.count : ℝ) / ((c.indexDocs (clean term)).length : ℝ))
  else 0

/-! Helper lemmas about characters, used to reason about `clean`. -/

lemma uint32_le_left (a : Nat) (b : UInt32) (h : a < UInt32.size) :
    (UInt32.ofNat a ≤ b) ↔ a ≤ b.toNat := by
  rw [UInt32.le_def, BitVec.le_def]
  constructor
  · intro hh
    calc a = (UInt32.ofNat a).toNat := (UInt32.toNat_ofNat_of_lt h).symm
      _ ≤ _ := hh
  · intro hh
    show (UInt32.ofNat a).toNat ≤ _
    rw [UInt32.toNat_ofNat_of_lt h]
    exact hh

lemma uint32_le_right (a : UInt32) (b : Nat) (h : b < UInt32.size) :
    (a ≤ UInt32.ofNat b) ↔ a.toNat ≤ b := by
  rw [UInt32.le_def, BitVec.le_def]
  constructor
  · intro hh
    calc a.toNat ≤ (UInt32.ofNat b).toNat := hh
      _ = b := UInt32.toNat_ofNat_of_lt h
  · intro hh
    show _ ≤ (UInt32.ofNat b).toNat
    rw [UInt32.toNat_ofNat_of_lt h]
    exact hh

lemma char_ofNat_toNat_of_valid (n : Nat) (h : n.isValidChar) :
    (Char.ofNat n).val.toNat = n := by
  simp [Char.ofNat, h, Char.ofNatAux, UInt32.toNat, BitVec.toNat_ofNatLt]

lemma isWordChar_eq_true_iff (c : Char) :
    isWordChar c = true ↔ ((65 ≤ c.val.toNat ∧ c.val.toNat ≤ 90) ∨
      (97 ≤ c.val.toNat ∧ c.val.toNat ≤ 122) ∨
      (48 ≤ c.val.toNat ∧ c.val.toNat ≤ 57) ∨ c = '_') := by
  simp only [isWordChar, Char.isAlphanum, Char.isAlpha, Char.isUpper, Char.isLower,
    Char.isDigit, Bool.or_eq_true, Bool.and_eq_true, decide_eq_true_eq, ge_iff_le]
  rw [show (65:UInt32) = UInt32.ofNat 65 from rfl, show (90:UInt32) = UInt32.ofNat 90 from rfl,
    show (97:UInt32) = UInt32.ofNat 97 from rfl, show (122:UInt32) = UInt32.ofNat 122 from rfl,
    show (48:UInt32) = UInt32.ofNat 48 from rfl, show (57:UInt32) = UInt32.ofNat 57 from rfl]
  rw [uint32_le_left _ _ (by decide), uint32_le_right _ _ (by decide),
    uint32_le_left _ _ (by decide), uint32_le_right _ _ (by decide),
    uint32_le_left _ _ (by decide), uint32_le_right _ _ (by decide)]
  tauto

lemma isWordChar_toLower (c : Char) : isWordChar c.toLower = isWordChar c := by
  by_cases h : c.toNat ≥ 65 ∧ c.toNat ≤ 90
  · have h1 : 65 ≤ c.val.toNat := h.1
    have h2 : c.val.toNat ≤ 90 := h.2
    have hvalid : (Char.toNat c + 32).isValidChar := Or.inl (by
      simp only [Char.toNat] at *
      omega)
    have hv := char_ofNat_toNat_of_valid _ hvalid
    simp only [Char.toLower, h, and_self, if_true]
    have hL : isWordChar (Char.ofNat (c.toNat + 32)) = true := by
      rw [isWordChar_eq_true_iff]
      right; left
      rw [hv]
      simp only [Char.toNat]
      omega
    have hR : isWordChar c = true := by
      rw [isWordChar_eq_true_iff]
      left
      exact And.intro h1 h2
    rw [hL, hR]
  · simp [Char.toLower, h]

lemma isUpper_eq_true_iff (c : Char) :
    c.isUpper = true ↔ 65 ≤ c.val.toNat ∧ c.val.toNat ≤ 90 := by
  simp only [Char.isUpper, Bool.and_eq_true, decide_eq_true_eq, ge_iff_le]
  rw [show (65:UInt32) = UInt32.ofNat 65 from rfl, show (90:UInt32) = UInt32.ofNat 90 from rfl]
  rw [uint32_le_left _ _ (by decide), uint32_le_right _ _ (by decide)]

lemma isUpper_toLower (c : Char) : c.toLower.isUpper = false := by
  by_cases h : c.toNat ≥ 65 ∧ c.toNat ≤ 90
  · have h1 : 65 ≤ c.val.toNat := h.1
    have h2 : c.val.toNat ≤ 90 := h.2
    have hvalid : (Char.toNat c + 32).isValidChar := Or.inl (by
      simp only [Char.toNat] at *
      omega)
    have hv := char_ofNat_toNat_of_valid _ hvalid
    simp only [Char.toLower, h, and_self, if_true]
    rw [Bool.eq_false_iff]
    intro ht
    rw [isUpper_eq_true_iff, hv] at ht
    simp only [Char.toNat] at ht
    omega
  · simp only [Char.toLower]
    rw [if_neg h, Bool.eq_false_iff]
    intro ht
    rw [isUpper_eq_true_iff] at ht
    exact h ⟨ht.1, ht.2⟩

/-! Helper lemmas about the engine. -/

lemma inIndex_iff (c : SearchEngine) (t : String) :
    c.inIndex t = true ↔ 0 < (c.indexDocs t).length := by
  rw [SearchEngine.inIndex, SearchEngine.indexDocs, List.any_eq_true, List.length_pos,
    Ne, List.filter_eq_nil_iff]
  push_neg
  simp

lemma indexDocs_length_le (c : SearchEngine) (t : String) :
    (c.indexDocs t).length ≤ c.count :=
  List.length_filter_le _ _

lemma totalWords_eq_max (d : Document) : d.totalWords = max 1 d.words.length := by
  rw [Document.totalWords]
  cases h : d.words with
  | nil => simp [h]
  | cons w ws => simp [h]

lemma totalWords_pos (d : Document) : 0 < d.totalWords := by
  rw [totalWords_eq_max]
  omega

lemma term_freq_nonneg (d : Document) (t : String) : 0 ≤ d.term_freq t := by
  rw [Document.term_freq]
  positivity

lemma term_freq_eq_zero_iff (d : Document) (t : String) :
    d.term_freq t = 0 ↔ t ∉ d.cleanedWords := by
  rw [Document.term_freq, div_eq_zero_iff]
  have h0 : ((d.totalWords : ℚ)) ≠ 0 := by
    have := totalWords_pos d
    positivity
  simp [h0, List.count_eq_zero]

lemma mem_get_words_iff (d : Document) (t : String) :
    t ∈ d.get_words ↔ t ∈ d.cleanedWords := by
  rw [Document.get_words, List.mem_dedup]

lemma calculate_idf_nonneg (c : SearchEngine) (t : String) : 0 ≤ c.calculate_idf t := by
  rw [SearchEngine.calculate_idf]
  split
  next h =>
    apply Real.log_nonneg
    have hpos : 0 < (c.indexDocs t).length := (inIndex_iff c t).mp h
    have hle : (c.indexDocs t).length ≤ c.count := indexDocs_length_le c t
    rw [one_le_div (by exact_mod_cast hpos)]
    exact_mod_cast hle
  next => exact le_refl 0

/-- Counterexample to C3 as stated: the claim says `clean` removes every
character that is not an ASCII letter or digit, but Python's `\W` spares the
underscore: `clean "_"` is `"_"`, not the `""` the claim's description
(`specNormalize`) produces. -/
theorem clean_ascii_alnum_divergence :
    clean "_" = "_" ∧ specNormalize "_" = "" ∧ clean "_" ≠ specNormalize "_" := by
  refine ⟨by decide, by decide, by decide⟩

/-- C3 (amended): `clean` lowercases the token and removes every character
that is not an ASCII letter, digit or underscore (a word character); it is
total, returns the empty string on input made entirely of non-word
characters, its output consists of word characters with no uppercase letter,
and `clean "Hello!" = "hello"`, `clean "DON'T" = "dont"`, `clean "..." = ""`. -/
theorem clean_normalizer_spec :
    (∀ s : String, (∀ c ∈ s.data, isWordChar c = false) → clean s = "") ∧
    (∀ s : String, ∀ c ∈ (clean s).data, isWordChar c = true ∧ c.isUpper = false) ∧
    clean "Hello!" = "hello" ∧ clean "DON'T" = "dont" ∧ clean "..." = "" := by
  refine ⟨?_, ?_, by decide, by decide, by decide⟩
  · intro s hs
    show (⟨(s.data.map Char.toLower).filter isWordChar⟩ : String) = ""
    have hnil : (s.data.map Char.toLower).filter isWordChar = [] := by
      rw [List.filter_eq_nil_iff]
      intro a ha
      obtain ⟨b, hb, rfl⟩ := List.mem_map.mp ha
      rw [isWordChar_toLower]
      simp [hs b hb]
    rw [hnil]
  · intro s c hc
    have hc2 : c ∈ (s.data.map Char.toLower).filter isWordChar := hc
    have hw := List.of_mem_filter hc2
    have hm := List.mem_of_mem_filter hc2
    obtain ⟨b, hb, rfl⟩ := List.mem_map.mp hm
    exact ⟨hw, isUpper_toLower b⟩

/-- Witness for the amended C3 at concrete inputs. -/
theorem clean_normalizer_spec_witness :
    clean "!!!" = "" ∧ (isWordChar 'h' = true ∧ Char.isUpper 'h' = false) := by
  refine ⟨clean_normalizer_spec.1 "!!!" (by decide),
    clean_normalizer_spec.2.1 "Hello!" 'h' (by decide)⟩

/-- Counterexample to C2 as stated: the claim says idf first normalizes its
argument, but `_calculate_idf` looks the raw term up: on the demo corpus the
code returns `0.0` for `"DOGS"` while the claim's description (`specIdf`,
which normalizes to `"dogs"`) yields `ln(3/2) ≠ 0`. -/
theorem calculate_idf_no_normalize_divergence :
    demo.calculate_idf "DOGS" = 0 ∧ specIdf demo "DOGS" ≠ 0 := by
  constructor
  · rw [SearchEngine.calculate_idf, if_neg (by decide : ¬ (demo.inIndex "DOGS" = true))]
  · have h1 : demo.count = 3 := by decide
    have h2 : (demo.indexDocs (clean "DOGS")).length = 2 := by decide
    rw [specIdf, if_pos (by decide : demo.inIndex (clean "DOGS") = true), h1, h2]
    have h3 : ((3:ℕ):ℝ) / ((2:ℕ):ℝ) = 3/2 := by norm_num
    rw [h3]
    exact ne_of_gt (Real.log_pos (by norm_num))

/-- C2 (amended): `_calculate_idf` takes its argument as given (no
normalization); it returns `0.0` when the term is absent from the inverted
index, returns `ln(documentCount / |invertedIndex[term]|)` when present, and
in particular a term appearing in every document yields idf `0.0`. -/
theorem calculate_idf_spec (c : SearchEngine) (t : String) :
    (c.inIndex t = false → c.calculate_idf t = 0) ∧
    (c.inIndex t = true →
      c.calculate_idf t = Real.log ((c.count : ℝ) / ((c.indexDocs t).length : ℝ))) ∧
    ((∀ d ∈ c.docs, t ∈ d.get_words) → c.calculate_idf t = 0) := by
  refine ⟨?_, ?_, ?_⟩
  · intro h
    rw [SearchEngine.calculate_idf, if_neg]
    simp [h]
  · intro h
    rw [SearchEngine.calculate_idf, if_pos h]
  · intro h
    by_cases hd : c.docs = []
    · rw [SearchEngine.calculate_idf, if_neg]
      simp [SearchEngine.inIndex, hd]
    · have hin : c.inIndex t = true := by
        rw [SearchEngine.inIndex, List.any_eq_true]
        obtain ⟨d, hdm⟩ := List.exists_mem_of_ne_nil c.docs hd
        refine ⟨d, hdm, ?_⟩
        simp [List.contains, h d hdm]
      have hlen : (c.indexDocs t).length = c.count := by
        rw [SearchEngine.indexDocs, SearchEngine.count]
        have he : c.docs.filter (fun d => d.get_words.contains t) = c.docs :=
          List.filter_eq_self.mpr (fun d hdm => by simp [h d hdm])
        rw [he]
      have hc0 : 0 < c.count := by
        rw [← hlen]
        exact (inIndex_iff c t).mp hin
      rw [SearchEngine.calculate_idf, if_pos hin, hlen,
        div_self (by exact_mod_cast Nat.pos_iff_ne_zero.mp hc0 : ((c.count : ℝ)) ≠ 0)]
      exact Real.log_one

/-- Witness for the amended C2: on the demo corpus, `"dogs"` is indexed and
its idf is the stated logarithm. -/
theorem calculate_idf_spec_witness :
    demo.inIndex "dogs" = true ∧
    demo.calculate_idf "dogs" =
      Real.log ((demo.count : ℝ) / ((demo.indexDocs "dogs").length : ℝ)) :=
  ⟨by decide, (calculate_idf_spec demo "dogs").2.1 (by decide)⟩

/-- C4: `term_frequency` normalizes its argument and returns the occurrence
count of the normalized term among the surviving tokens divided by
`max(1, number of raw whitespace tokens)`; absent terms give `0.0`, and for
the document built from `"dogs are the greatest pets"`,
`term_frequency("dogs") = 1/5`. -/
theorem term_frequency_spec (d : Document) (term : String) :
    d.term_frequency term =
      (d.cleanedWords.count (clean term) : ℚ) / ((max 1 d.words.length : ℕ) : ℚ) ∧
    (clean term ∉ d.cleanedWords → d.term_frequency term = 0) ∧
    doc1.term_frequency "dogs" = 1/5 := by
  refine ⟨?_, ?_, ?_⟩
  · rw [Document.term_frequency, Document.term_freq, totalWords_eq_max]
  · intro h
    rw [Document.term_frequency]
    exact (term_freq_eq_zero_iff d (clean term)).mpr h
  · rw [Document.term_frequency, Document.term_freq]
    norm_num [show doc1.cleanedWords.count (clean "dogs") = 1 from by decide,
      show doc1.totalWords = 5 from by decide]

/-- Witness for C4: `"dogs"` does not occur in the second demo document, so
its term frequency there is `0`. -/
theorem term_frequency_spec_witness : doc2.term_frequency "dogs" = 0 :=
  (term_frequency_spec doc2 "dogs").2.1 (by decide)

/-- C6: search never raises — an empty corpus, an empty query, and a query no
term of which matches any document each produce the empty result sequence,
and on the empty corpus idf of any term is `0.0`. -/
theorem search_total_spec (c : SearchEngine) (q : String) (t : String) :
    (SearchEngine.search ⟨[]⟩ q = []) ∧
    (c.search "" = []) ∧
    ((∀ u ∈ queryTerms q, c.inIndex u = false) → c.search q = []) ∧
    (SearchEngine.calculate_idf ⟨[]⟩ t = 0) := by
  refine ⟨?_, ?_, ?_, ?_⟩
  · simp [SearchEngine.search, SearchEngine.ranked, SearchEngine.matchingDocs,
      List.insertionSort]
  · simp [SearchEngine.search, SearchEngine.ranked, SearchEngine.matchingDocs,
      queryTerms, show pySplit "" = [] from rfl, List.insertionSort]
  · intro hu
    have hnil : c.matchingDocs q = [] := by
      rw [SearchEngine.matchingDocs, List.filter_eq_nil_iff]
      intro d _ hd
      rw [List.any_eq_true] at hd
      obtain ⟨u, hum, huc⟩ := hd
      rw [Bool.and_eq_true] at huc
      rw [hu u hum] at huc
      exact Bool.false_ne_true huc.1
    simp [SearchEngine.search, SearchEngine.ranked, hnil, List.insertionSort]
  · rw [SearchEngine.calculate_idf, if_neg]
    simp [SearchEngine.inIndex]

/-- Witness for C6: on the demo corpus, a query matching nothing returns the
empty list. -/
theorem search_total_spec_witness : demo.search "zebra" = [] :=
  (search_total_spec demo "zebra" "x").2.2.1 (by decide)

/-- C7: a term is in the inverted index iff some document's term-frequency
table holds it with nonzero frequency; each index entry (for a duplicate-free
document list) holds no duplicate document references; and every entry's
length is at most the document count. -/
theorem inverted_index_invariants (c : SearchEngine) (t : String) (h : c.docs.Nodup) :
    (c.inIndex t = true ↔ ∃ d ∈ c.docs, d.term_freq t ≠ 0) ∧
    (c.indexDocs t).Nodup ∧
    (c.indexDocs t).length ≤ c.count := by
  refine ⟨?_, List.Nodup.filter _ h, indexDocs_length_le c t⟩
  rw [SearchEngine.inIndex, List.any_eq_true]
  constructor
  · rintro ⟨d, hd, hc⟩
    refine ⟨d, hd, ?_⟩
    rw [Ne, term_freq_eq_zero_iff, not_not, ← mem_get_words_iff]
    simpa using hc
  · rintro ⟨d, hd, hf⟩
    refine ⟨d, hd, ?_⟩
    rw [Ne, term_freq_eq_zero_iff, not_not, ← mem_get_words_iff] at hf
    simpa using hf

/-- Witness for C7 on the demo corpus and the term `"dogs"`. -/
theorem inverted_index_invariants_witness :
    (demo.inIndex "dogs" = true ↔ ∃ d ∈ demo.docs, d.term_freq "dogs" ≠ 0) ∧
    (demo.indexDocs "dogs").Nodup ∧
    (demo.indexDocs "dogs").length ≤ demo.count :=
  inverted_index_invariants demo "dogs" (by decide)

/-- C8: idf is strictly monotone in term rarity — if both terms are indexed
and `a`'s entry is strictly shorter than `b`'s, then `idf(a) > idf(b)`
(the bound `|invertedIndex[b]| ≤ documentCount` holds automatically). -/
theorem idf_strict_antitone (c : SearchEngine) (a b : String)
    (ha : 0 < (c.indexDocs a).length)
    (hab : (c.indexDocs a).length < (c.indexDocs b).length) :
    c.calculate_idf b < c.calculate_idf a := by
  have hina : c.inIndex a = true := (inIndex_iff c a).mpr ha
  have hinb : c.inIndex b = true := (inIndex_iff c b).mpr (lt_trans ha hab)
  have hbN : (c.indexDocs b).length ≤ c.count := indexDocs_length_le c b
  have hN : (0:ℝ) < (c.count : ℝ) := by
    exact_mod_cast lt_of_lt_of_le (lt_trans ha hab) hbN
  have hla : (0:ℝ) < ((c.indexDocs a).length : ℝ) := by exact_mod_cast ha
  have hlb : (0:ℝ) < ((c.indexDocs b).length : ℝ) := by
    exact_mod_cast lt_trans ha hab
  simp only [SearchEngine.calculate_idf, hina, hinb, if_true]
  apply Real.log_lt_log (div_pos hN hlb)
  rw [div_lt_div_iff_of_pos_left hN hlb hla]
  exact_mod_cast hab

/-- Witness for C8: on the demo corpus `"love"` (1 document) is rarer than
`"dogs"` (2 documents), so its idf is strictly larger. -/
theorem idf_strict_antitone_witness :
    0 < (demo.indexDocs "love").length ∧
    (demo.indexDocs "love").length < (demo.indexDocs "dogs").length ∧
    demo.calculate_idf "dogs" < demo.calculate_idf "love" :=
  ⟨by decide, by decide, idf_strict_antitone demo "love" "dogs" (by decide) (by decide)⟩

/-- C10: every inverted-index entry is non-empty with length at most the
document count, so idf's quotient is defined and idf is non-negative, and
every score is non-negative. -/
theorem idf_score_safety (c : SearchEngine) (t : String) (q : String) (d : Document) :
    (c.inIndex t = true → 0 < (c.indexDocs t).length) ∧
    (c.indexDocs t).length ≤ c.count ∧
    0 ≤ c.calculate_idf t ∧
    0 ≤ c.score q d := by
  refine ⟨(inIndex_iff c t).mp, indexDocs_length_le c t, calculate_idf_nonneg c t, ?_⟩
  rw [SearchEngine.score]
  apply List.sum_nonneg
  intro x hx
  obtain ⟨u, hu, rfl⟩ := List.mem_map.mp hx
  apply mul_nonneg (calculate_idf_nonneg c u)
  exact_mod_cast term_freq_nonneg d (clean u)

/-- Witness for C10 on the demo corpus. -/
theorem idf_score_safety_witness :
    0 < (demo.indexDocs "dogs").length ∧
    0 ≤ demo.calculate_idf "dogs" ∧
    0 ≤ demo.score "love dogs" doc1 := by
  have h := idf_score_safety demo "dogs" "love dogs" doc1
  exact ⟨h.1 (by decide), h.2.2.1, h.2.2.2⟩

/-- C9: building twice from the same input list and running the same query
yields identical result sequences. -/
theorem rebuild_deterministic (entries : List (String × String)) (q : String)
    (c1 c2 : SearchEngine) (h1 : c1 = build entries) (h2 : c2 = build entries) :
    c1.search q = c2.search q := by
  subst h1
  subst h2
  rfl

/-- Witness for C9 at a concrete one-document corpus. -/
theorem rebuild_deterministic_witness :
    (build [("doc1.txt", "dogs are the greatest pets")]).search "dogs" =
      (build [("doc1.txt", "dogs are the greatest pets")]).search "dogs" :=
  rebuild_deterministic [("doc1.txt", "dogs are the greatest pets")] "dogs" _ _ rfl rfl

/-- The demo corpus as build input, for the query-result round-trip claims. -/
def demoEntries : List (String × String) :=
  [("doc1.txt", "dogs are the greatest pets"),
   ("doc2.txt", "cats seem pretty okay"),
   ("doc3.txt", "i love dogs")]

lemma build_paths (entries : List (String × String)) :
    (build entries).docs.map Document.path = entries.map Prod.fst := by
  rw [build, List.map_map]
  rfl

/-- C5: search output is sorted by non-increasing tf-idf score, holds each
identifier at most once (for duplicate-free input identifiers), and every
returned identifier equals exactly one identifier of the build input. -/
theorem search_output_spec (entries : List (String × String)) (q : String)
    (h : (entries.map Prod.fst).Nodup) :
    List.Sorted (· ≥ ·) (((build entries).ranked q).map (fun p => p.2)) ∧
    (build entries).search q = ((build entries).ranked q).map (fun p => p.1.path) ∧
    ((build entries).search q).Nodup ∧
    (∀ p ∈ (build entries).search q, (entries.map Prod.fst).count p = 1) := by
  set c := build entries with hc
  have hperm : List.Perm (c.ranked q) ((c.matchingDocs q).map (fun d => (d, c.score q d))) :=
    List.perm_insertionSort rankRel _
  have hsorted : List.Sorted rankRel (c.ranked q) :=
    List.sorted_insertionSort rankRel _
  have hpm : List.Perm (c.search q) ((c.matchingDocs q).map (fun d => d.path)) := by
    rw [SearchEngine.search]
    have hm := hperm.map (fun p => p.1.path)
    rw [List.map_map] at hm
    exact hm
  have hdocs : c.docs.map (fun d => d.path) = entries.map Prod.fst := build_paths entries
  have hsub : List.Sublist ((c.matchingDocs q).map (fun d => d.path))
      (c.docs.map (fun d => d.path)) :=
    List.Sublist.map _ (List.filter_sublist _)
  have hnd : ((c.matchingDocs q).map (fun d => d.path)).Nodup := by
    apply List.Nodup.sublist hsub
    rw [hdocs]
    exact h
  refine ⟨?_, rfl, ?_, ?_⟩
  · exact hsorted.map _ (fun a b hab => hab)
  · exact hpm.nodup_iff.mpr hnd
  · intro p hp
    have hmem : p ∈ (c.matchingDocs q).map (fun d => d.path) := hpm.subset hp
    have hmem2 : p ∈ entries.map Prod.fst := by
      rw [← hdocs]
      exact hsub.subset hmem
    exact List.count_eq_one_of_mem h hmem2

/-- Witness for C5 on the demo corpus with query `"dogs"`. -/
theorem search_output_spec_witness :
    ((build demoEntries).search "dogs").Nodup ∧
    ∀ p ∈ (build demoEntries).search "dogs", (demoEntries.map Prod.fst).count p = 1 := by
  have h := search_output_spec demoEntries "dogs" (by decide)
  exact ⟨h.2.2.1, h.2.2.2⟩

/-! Concrete evaluations on the demo corpus, for the end-to-end scenario. -/

lemma demo_idf_love : demo.calculate_idf "love" = Real.log 3 := by
  rw [SearchEngine.calculate_idf, if_pos (by decide : demo.inIndex "love" = true),
    show demo.count = 3 from by decide,
    show (demo.indexDocs "love").length = 1 from by decide]
  norm_num

lemma demo_idf_dogs : demo.calculate_idf "dogs" = Real.log (3/2) := by
  rw [SearchEngine.calculate_idf, if_pos (by decide : demo.inIndex "dogs" = true),
    show demo.count = 3 from by decide,
    show (demo.indexDocs "dogs").length = 2 from by decide]
  norm_num

lemma doc1_tf_love : doc1.term_frequency "love" = 0 := by
  rw [Document.term_frequency, Document.term_freq]
  norm_num [show doc1.cleanedWords.count (clean "love") = 0 from by decide]

lemma doc1_tf_dogs : doc1.term_frequency "dogs" = 1/5 := by
  rw [Document.term_frequency, Document.term_freq]
  norm_num [show doc1.cleanedWords.count (clean "dogs") = 1 from by decide,
    show doc1.totalWords = 5 from by decide]

lemma doc3_tf_love : doc3.term_frequency "love" = 1/3 := by
  rw [Document.term_frequency, Document.term_freq]
  norm_num [show doc3.cleanedWords.count (clean "love") = 1 from by decide,
    show doc3.totalWords = 3 from by decide]

lemma doc3_tf_dogs : doc3.term_frequency "dogs" = 1/3 := by
  rw [Document.term_frequency, Document.term_freq]
  norm_num [show doc3.cleanedWords.count (clean "dogs") = 1 from by decide,
    show doc3.totalWords = 3 from by decide]

lemma demo_score_doc1 : demo.score "love dogs" doc1 = Real.log (3/2) * (1/5) := by
  rw [SearchEngine.score, show queryTerms "love dogs" = ["love", "dogs"] from by decide]
  simp only [List.map_cons, List.map_nil, List.sum_cons, List.sum_nil]
  rw [demo_idf_love, demo_idf_dogs, doc1_tf_love, doc1_tf_dogs]
  push_cast
  ring

lemma demo_score_doc3 :
    demo.score "love dogs" doc3 = Real.log 3 * (1/3) + Real.log (3/2) * (1/3) := by
  rw [SearchEngine.score, show queryTerms "love dogs" = ["love", "dogs"] from by decide]
  simp only [List.map_cons, List.map_nil, List.sum_cons, List.sum_nil]
  rw [demo_idf_love, demo_idf_dogs, doc3_tf_love, doc3_tf_dogs]
  push_cast
  ring

lemma demo_score_lt : demo.score "love dogs" doc1 < demo.score "love dogs" doc3 := by
  rw [demo_score_doc1, demo_score_doc3]
  have l1 : 0 < Real.log 3 := Real.log_pos (by norm_num)
  have l2 : 0 < Real.log (3/2) := Real.log_pos (by norm_num)
  linarith

/-- C1: on the corpus `{doc1: "dogs are the greatest pets", doc2: "cats seem
pretty okay", doc3: "i love dogs"}`, `search("love dogs")` returns exactly
doc3 followed by doc1 — both matching documents, doc2 excluded, and doc3
ranked strictly above doc1. -/
theorem search_love_dogs_ranking :
    demo.search "love dogs" = ["doc3.txt", "doc1.txt"] := by
  rw [SearchEngine.search, SearchEngine.ranked,
    show demo.matchingDocs "love dogs" = [doc1, doc3] from by decide]
  simp only [List.map_cons, List.map_nil]
  have hnr : ¬ rankRel (doc1, demo.score "love dogs" doc1)
      (doc3, demo.score "love dogs" doc3) := by
    rw [rankRel]
    exact not_le.mpr demo_score_lt
  simp only [List.insertionSort, List.orderedInsert]
  rw [if_neg hnr]
  simp only [List.map_cons, List.map_nil]
  rfl
